import Mathlib

/-!
Shallow embedding of `src/src/energy/whoopEnergyModel.js` (the WHOOP → energy
schedule builder).  Times are absolute UTC instants in milliseconds, modelled
as exact rationals; every numeric input field is an `Option ℚ` holding the
finite numeric value of the raw JSON field (`none` when the field is missing
or `Number(...)` is not finite, matching `getNumber`'s fallback path), and
`SleepRecord.start` / `SleepRecord.end` hold the `Date.parse` result (`none`
when the string does not parse as an absolute instant).  The function returns
`Except String EnergyModelOutput`, with `.error` at exactly the `throw` sites
of the source.  String rendering of instants (`formatIsoWithOffset`,
`format12HourEST`) is not modelled; each segment carries the underlying
instants, and the output carries the timezone offset (in minutes) with which
every ISO timestamp would be rendered.
-/

/-- `HOUR_MS = 3_600_000` from the source head. -/
def HOUR_MS : ℚ := 3600000

/-- `clamp(x, min, max) = Math.max(min, Math.min(max, x))`. -/
def clamp (x lo hi : ℚ) : ℚ := max lo (min hi x)

/-- `getNumber(v, 0)`: the finite numeric value of the field, else the
fallback `0`.  `none` models a missing field or one whose `Number(...)` is
not finite. -/
def getNumber (v : Option ℚ) : ℚ := v.getD 0

/-- The condition of the regex `^([+-])(\d{2}):(\d{2})$` of
`parseTimezoneOffsetMinutes`, on the character list of the string. -/
def tzCharsValid : List Char → Bool
  | [c0, c1, c2, c3, c4, c5] =>
      (c0 == '+' || c0 == '-') && c1.isDigit && c2.isDigit &&
        (c3 == ':') && c4.isDigit && c5.isDigit
  | _ => false

/-- The offset value `sign * (hh*60 + mm)` read off a matched string. -/
def tzOffsetOfChars : List Char → ℤ
  | [c0, c1, c2, _, c4, c5] =>
      (if c0 == '-' then -1 else 1) *
        (((c1.toNat - 48) * 10 + (c2.toNat - 48) : ℤ) * 60 +
          ((c4.toNat - 48) * 10 + (c5.toNat - 48) : ℤ))
  | _ => 0

/-- `parseTimezoneOffsetMinutes`: non-string (`none`) or non-matching input
yields `0`; a match `±HH:MM` yields `sign * (HH*60 + MM)`. -/
def parseTimezoneOffsetMinutes : Option String → ℤ
  | none => 0
  | some s => if tzCharsValid s.data then tzOffsetOfChars s.data else 0

/-- A string the source's timezone regex accepts. -/
def tzWellFormed (s : String) : Bool := tzCharsValid s.data

/-- `sleep.score.sleep_needed` sub-object. -/
structure SleepNeeded where
  need_from_sleep_debt_milli : Option ℚ
deriving DecidableEq

/-- `sleep.score` sub-object. -/
structure SleepScore where
  sleep_performance_percentage : Option ℚ
  sleep_consistency_percentage : Option ℚ
  sleep_needed : SleepNeeded
deriving DecidableEq

/-- The WHOOP sleep record, reduced to the fields the builder reads.
`start`/`end` are the `Date.parse` results in UTC milliseconds. -/
structure SleepRecord where
  start : Option ℚ
  «end» : Option ℚ
  timezone_offset : Option String
  score : SleepScore
deriving DecidableEq

/-- `recovery.score` sub-object. -/
structure RecoveryScore where
  recovery_score : Option ℚ
deriving DecidableEq

/-- The WHOOP recovery record, reduced to the field the builder reads. -/
structure RecoveryRecord where
  score : RecoveryScore
deriving DecidableEq

/-- The caller-supplied config `{chronotypeOffsetHours?, dayDate?}`. -/
structure Config where
  chronotypeOffsetHours : Option ℚ
  dayDate : Option String
deriving DecidableEq

/-- The closed five-value segment category enumeration. -/
inductive SegType where
  | groggy
  | peak
  | dip
  | wind_down
  | melatonin
deriving DecidableEq

/-- An output segment.  `startUtcMs`/`endUtcMs` are the absolute instants
behind `start_iso`/`end_iso` (and the formatted `start`/`end` strings). -/
structure EnergySegment where
  label : String
  type : SegType
  startUtcMs : ℚ
  endUtcMs : ℚ
  energy : ℚ
deriving DecidableEq

/-- `dayMode` enumeration. -/
inductive DayMode where
  | push
  | balanced
  | conserve
deriving DecidableEq

/-- The returned object (lines 295–305 of the source).  `wakeTimeUtcMs` is
the instant behind `wakeTime`/`wakeTime_iso`; `timezoneOffsetMinutes` is the
offset with which every ISO string of the output is rendered. -/
structure EnergyModelOutput where
  wakeTimeUtcMs : ℚ
  timezoneOffsetMinutes : ℤ
  sleepDurationHours : ℚ
  sleepDebtHours : ℚ
  sleepPerf : ℚ
  recoveryScore : ℚ
  dayMode : DayMode
  overallCapacity : ℚ
  segments : List EnergySegment
deriving DecidableEq

/-- `qualityFactor = clamp(0.5*(sleepPerf/100) + 0.5*(recoveryScore/100), 0, 1)`. -/
def qualityFactor (sleepPerf recoveryScore : ℚ) : ℚ :=
  clamp (0.5 * (sleepPerf / 100) + 0.5 * (recoveryScore / 100)) 0 1

/-- `debtFactor = clamp(sleepDebtHours / 3, 0, 1)`. -/
def debtFactor (sleepDebtHours : ℚ) : ℚ := clamp (sleepDebtHours / 3) 0 1

/-- `fatigueFactor = 1 - qualityFactor`. -/
def fatigueFactor (q : ℚ) : ℚ := 1 - q

/-- `peakDelayHours = 0.5 * fatigueFactor`. -/
def peakDelayHours (f : ℚ) : ℚ := 0.5 * f

/-- `peakShrinkRatio = 1 - 0.3 * fatigueFactor`. -/
def peakShrinkRatio (f : ℚ) : ℚ := 1 - 0.3 * f

/-- `lowEnergyExtendRatio = 1 + 0.5 * debtFactor`. -/
def lowEnergyExtendRatio (d : ℚ) : ℚ := 1 + 0.5 * d

/-- Base energy score per category (the `baseE` table). -/
def baseE : SegType → ℚ
  | .groggy => 0.3
  | .peak => 0.9
  | .dip => 0.4
  | .wind_down => 0.3
  | .melatonin => 0.2

/-- `scaleEnergy(base, isLowEnergy)` with the ambient `qualityFactor` and
`debtFactor` passed explicitly. -/
def scaleEnergy (q d base : ℚ) (isLowEnergy : Bool) : ℚ :=
  let x := base * q
  let x := if isLowEnergy then x * (1 - 0.3 * d) else x
  clamp x 0 1

/-- `overallCapacity = clamp(100*(0.5*q + 0.3*(1-d) + 0.2*(consistency/100)), 0, 100)`. -/
def overallCapacity (q d sleepConsistency : ℚ) : ℚ :=
  clamp (100 * (0.5 * q + 0.3 * (1 - d) + 0.2 * (sleepConsistency / 100))) 0 100

/-- The `dayMode` classifier over `overallCapacity`. -/
def dayModeOf (capacity : ℚ) : DayMode :=
  if capacity ≥ 75 then .push
  else if capacity ≥ 55 then .balanced
  else .conserve

/-- The six output segments.  This unrolls the `pushSeg` cursor loop of the
source (five calls, each starting where the previous ended), the appended
melatonin window (start = wind-down end, duration `0.8 * windDownDurationMs`),
and the `segments.map` that attaches energies with
`isLowEnergy = (type !== "peak")`.  Base durations are written as in the
source: `baseGroggyH = 1.5`, `baseMorningPeakH = 5.0 - 1.5`,
`baseAfternoonDipH = 8.0 - 5.0`, `baseEveningPeakH = 11.0 - 8.0`,
`baseWindDownH = 13.0 - 11.0`. -/
def mkSegments (internalWakeUtcMs q d : ℚ) : List EnergySegment :=
  let f := fatigueFactor q
  let pDelay := peakDelayHours f
  let pShrink := peakShrinkRatio f
  let lowExt := lowEnergyExtendRatio d
  let groggyDurationMs := (1.5 * lowExt + pDelay) * HOUR_MS
  let morningPeakDurationMs := (5.0 - 1.5) * pShrink * HOUR_MS
  let afternoonDipDurationMs := ((8.0 - 5.0) * lowExt + pDelay) * HOUR_MS
  let eveningPeakDurationMs := (11.0 - 8.0) * pShrink * HOUR_MS
  let windDownDurationMs := (13.0 - 11.0) * HOUR_MS
  let t0 := internalWakeUtcMs
  let t1 := t0 + groggyDurationMs
  let t2 := t1 + morningPeakDurationMs
  let t3 := t2 + afternoonDipDurationMs
  let t4 := t3 + eveningPeakDurationMs
  let t5 := t4 + windDownDurationMs
  let t6 := t5 + 0.8 * windDownDurationMs
  [ ⟨"Groggy", .groggy, t0, t1, scaleEnergy q d (baseE .groggy) true⟩,
    ⟨"Morning Peak", .peak, t1, t2, scaleEnergy q d (baseE .peak) false⟩,
    ⟨"Afternoon Dip", .dip, t2, t3, scaleEnergy q d (baseE .dip) true⟩,
    ⟨"Evening Peak", .peak, t3, t4, scaleEnergy q d (baseE .peak) false⟩,
    ⟨"Wind-Down", .wind_down, t4, t5, scaleEnergy q d (baseE .wind_down) true⟩,
    ⟨"Melatonin Window", .melatonin, t5, t6, scaleEnergy q d (baseE .melatonin) true⟩ ]

/-- The contiguity validation loop: adjacent segments must satisfy
`|next.start - curr.end| ≤ 1000` (milliseconds), else the source throws. -/
def contiguityOk : List EnergySegment → Bool
  | a :: b :: rest =>
      decide (|b.startUtcMs - a.endUtcMs| ≤ 1000) && contiguityOk (b :: rest)
  | _ => true

/-- The wind-down/melatonin validation: when both a `wind_down` and a
`melatonin` segment are found, `|melatonin.start - windDown.end| ≤ 1000`. -/
def melatoninOk (segs : List EnergySegment) : Bool :=
  match segs.find? (fun s => s.type == SegType.wind_down),
        segs.find? (fun s => s.type == SegType.melatonin) with
  | some w, some m => decide (|m.startUtcMs - w.endUtcMs| ≤ 1000)
  | _, _ => true

/-- The energy-range validation loop: every energy must lie in `[0, 1]`. -/
def energiesOk (segs : List EnergySegment) : Bool :=
  segs.all (fun s => decide (0 ≤ s.energy ∧ s.energy ≤ 1))

/-- The output value assembled from the parsed and defaulted inputs, before
the validation loops. -/
def assembleOutput (sleepStartUtcMs sleepEndUtcMs : ℚ) (timezoneOffsetMinutes : ℤ)
    (needFromDebtMilli sleepPerf sleepConsistency recoveryScore chronotypeOffsetHours : ℚ) :
    EnergyModelOutput :=
  let wakeUtcMs := sleepEndUtcMs
  let internalWakeUtcMs := wakeUtcMs + chronotypeOffsetHours * HOUR_MS
  let sleepDebtHours := needFromDebtMilli / HOUR_MS
  let q := qualityFactor sleepPerf recoveryScore
  let d := debtFactor sleepDebtHours
  let capacity := overallCapacity q d sleepConsistency
  { wakeTimeUtcMs := wakeUtcMs
    timezoneOffsetMinutes := timezoneOffsetMinutes
    sleepDurationHours := (sleepEndUtcMs - sleepStartUtcMs) / HOUR_MS
    sleepDebtHours := sleepDebtHours
    sleepPerf := sleepPerf
    recoveryScore := recoveryScore
    dayMode := dayModeOf capacity
    overallCapacity := capacity
    segments := mkSegments internalWakeUtcMs q d }

/-- The body of `buildEnergyScheduleFromWhoop` after both `Date.parse` calls
succeeded: assemble the output, then run the three validation loops in source
order, throwing (returning `.error`) when one fails. -/
def buildCore (sleepStartUtcMs sleepEndUtcMs : ℚ) (timezoneOffsetMinutes : ℤ)
    (needFromDebtMilli sleepPerf sleepConsistency recoveryScore chronotypeOffsetHours : ℚ) :
    Except String EnergyModelOutput :=
  let out := assembleOutput sleepStartUtcMs sleepEndUtcMs timezoneOffsetMinutes
    needFromDebtMilli sleepPerf sleepConsistency recoveryScore chronotypeOffsetHours
  if contiguityOk out.segments = false then .error "Segments not contiguous"
  else if melatoninOk out.segments = false then
    .error "Melatonin not contiguous with wind-down"
  else if energiesOk out.segments = false then .error "Invalid energy score (must be 0-1)"
  else .ok out

/-- `buildEnergyScheduleFromWhoop(sleep, recovery, config)`: fails iff
`sleep.start` or `sleep.end` did not parse; otherwise reads the numeric
fields through `getNumber` (fallback 0), the timezone offset through
`parseTimezoneOffsetMinutes` (non-string → `"+00:00"` → 0), and runs the
core. -/
def buildEnergyScheduleFromWhoop (sleep : SleepRecord) (recovery : RecoveryRecord)
    (config : Config) : Except String EnergyModelOutput :=
  match sleep.start, sleep.«end» with
  | some sleepStartUtcMs, some sleepEndUtcMs =>
      buildCore sleepStartUtcMs sleepEndUtcMs
        (parseTimezoneOffsetMinutes sleep.timezone_offset)
        (getNumber sleep.score.sleep_needed.need_from_sleep_debt_milli)
        (getNumber sleep.score.sleep_performance_percentage)
        (getNumber sleep.score.sleep_consistency_percentage)
        (getNumber recovery.score.recovery_score)
        (getNumber config.chronotypeOffsetHours)
  | _, _ => .error "Invalid sleep.start or sleep.end (expected ISO datetime)"

/-- The worked example of the spec: 8 h of sleep ending at instant
28 800 000 ms, offset "-05:00", performance 98, consistency 90, sleep debt
352 230 ms, recovery 44. -/
def exampleSleep : SleepRecord :=
  { start := some 0
    «end» := some 28800000
    timezone_offset := some "-05:00"
    score :=
      { sleep_performance_percentage := some 98
        sleep_consistency_percentage := some 90
        sleep_needed := { need_from_sleep_debt_milli := some 352230 } } }

/-- Recovery record of the worked example. -/
def exampleRecovery : RecoveryRecord := { score := { recovery_score := some 44 } }

/-- Config of the worked example (chronotype +0.5 h). -/
def exampleConfig : Config := { chronotypeOffsetHours := some 0.5, dayDate := some "2025-06-01" }

/-- A degenerate input: valid instants, a malformed timezone string, every
numeric score field missing. -/
def degenerateSleep : SleepRecord :=
  { start := some 0
    «end» := some 28800000
    timezone_offset := some "banana"
    score :=
      { sleep_performance_percentage := none
        sleep_consistency_percentage := none
        sleep_needed := { need_from_sleep_debt_milli := none } } }

/-- Recovery record with the score missing. -/
def degenerateRecovery : RecoveryRecord := { score := { recovery_score := none } }

/-- Empty config. -/
def emptyConfig : Config := { chronotypeOffsetHours := none, dayDate := none }

/-- An input whose end instant (0) is strictly before its start instant
(3 600 000 ms): the `end ≥ start` invariant is violated while both parse. -/
def invertedSleep : SleepRecord :=
  { start := some 3600000
    «end» := some 0
    timezone_offset := none
    score :=
      { sleep_performance_percentage := none
        sleep_consistency_percentage := none
        sleep_needed := { need_from_sleep_debt_milli := none } } }

/-- An input whose performance (150) and recovery (-20) are numeric but out
of the [0,100] range. -/
def outOfRangeSleep : SleepRecord :=
  { start := some 0
    «end» := some 28800000
    timezone_offset := none
    score :=
      { sleep_performance_percentage := some 150
        sleep_consistency_percentage := some 90
        sleep_needed := { need_from_sleep_debt_milli := some 352230 } } }

/-- Recovery record with an out-of-range (negative) recovery score. -/
def outOfRangeRecovery : RecoveryRecord := { score := { recovery_score := some (-20) } }

theorem le_clamp (x lo hi : ℚ) : lo ≤ clamp x lo hi := le_max_left _ _

theorem clamp_le_right (x lo hi : ℚ) (h : lo ≤ hi) : clamp x lo hi ≤ hi :=
  max_le h (min_le_left _ _)

theorem clamp_mono (x y lo hi : ℚ) (h : x ≤ y) : clamp x lo hi ≤ clamp y lo hi :=
  max_le_max le_rfl (min_le_min le_rfl h)

theorem scaleEnergy_nonneg (q d b : ℚ) (lo : Bool) : 0 ≤ scaleEnergy q d b lo :=
  le_clamp _ _ _

theorem scaleEnergy_le_one (q d b : ℚ) (lo : Bool) : scaleEnergy q d b lo ≤ 1 :=
  clamp_le_right _ _ _ (by norm_num)

theorem contiguityOk_mkSegments (w q d : ℚ) : contiguityOk (mkSegments w q d) = true := by
  simp [mkSegments, contiguityOk]

theorem beq_groggy_wind_down : (SegType.groggy == SegType.wind_down) = false := rfl

theorem beq_peak_wind_down : (SegType.peak == SegType.wind_down) = false := rfl

theorem beq_dip_wind_down : (SegType.dip == SegType.wind_down) = false := rfl

theorem beq_wind_down_wind_down : (SegType.wind_down == SegType.wind_down) = true := rfl

theorem beq_groggy_melatonin : (SegType.groggy == SegType.melatonin) = false := rfl

theorem beq_peak_melatonin : (SegType.peak == SegType.melatonin) = false := rfl

theorem beq_dip_melatonin : (SegType.dip == SegType.melatonin) = false := rfl

theorem beq_wind_down_melatonin : (SegType.wind_down == SegType.melatonin) = false := rfl

theorem beq_melatonin_melatonin : (SegType.melatonin == SegType.melatonin) = true := rfl

theorem melatoninOk_mkSegments (w q d : ℚ) : melatoninOk (mkSegments w q d) = true := by
  simp [mkSegments, melatoninOk, List.find?, beq_groggy_wind_down, beq_peak_wind_down,
    beq_dip_wind_down, beq_wind_down_wind_down, beq_groggy_melatonin, beq_peak_melatonin,
    beq_dip_melatonin, beq_wind_down_melatonin, beq_melatonin_melatonin]

theorem energiesOk_mkSegments (w q d : ℚ) : energiesOk (mkSegments w q d) = true := by
  simp [mkSegments, energiesOk, scaleEnergy_nonneg, scaleEnergy_le_one]

theorem buildCore_eq_ok (s0 e0 : ℚ) (tz : ℤ) (nm p c r ch : ℚ) :
    buildCore s0 e0 tz nm p c r ch = Except.ok (assembleOutput s0 e0 tz nm p c r ch) := by
  have hseg : (assembleOutput s0 e0 tz nm p c r ch).segments =
      mkSegments (e0 + ch * HOUR_MS) (qualityFactor p r) (debtFactor (nm / HOUR_MS)) := rfl
  unfold buildCore
  simp [hseg, contiguityOk_mkSegments, melatoninOk_mkSegments, energiesOk_mkSegments]

theorem build_eq_ok (sleep : SleepRecord) (recovery : RecoveryRecord) (config : Config)
    (s0 e0 : ℚ) (hs : sleep.start = some s0) (he : sleep.«end» = some e0) :
    buildEnergyScheduleFromWhoop sleep recovery config =
      Except.ok (assembleOutput s0 e0 (parseTimezoneOffsetMinutes sleep.timezone_offset)
        (getNumber sleep.score.sleep_needed.need_from_sleep_debt_milli)
        (getNumber sleep.score.sleep_performance_percentage)
        (getNumber sleep.score.sleep_consistency_percentage)
        (getNumber recovery.score.recovery_score)
        (getNumber config.chronotypeOffsetHours)) := by
  unfold buildEnergyScheduleFromWhoop
  rw [hs, he]
  exact buildCore_eq_ok _ _ _ _ _ _ _ _

/-- C1: for every input where `sleep.start` and `sleep.end` parse as absolute
instants, `buildEnergyScheduleFromWhoop` returns a segment list of exactly six
segments in the fixed order groggy (Groggy), peak (Morning Peak), dip
(Afternoon Dip), peak (Evening Peak), wind_down (Wind-Down), melatonin
(Melatonin Window), and for each of the five adjacent pairs the end instant of
segment i equals the start instant of segment i+1 within 1 second (1000 ms),
including the Wind-Down/Melatonin boundary. -/
theorem C1_six_contiguous_segments (sleep : SleepRecord) (recovery : RecoveryRecord)
    (config : Config) (s0 e0 : ℚ) (hs : sleep.start = some s0) (he : sleep.«end» = some e0) :
    ∃ out, buildEnergyScheduleFromWhoop sleep recovery config = Except.ok out ∧
      out.segments.length = 6 ∧
      out.segments.map (fun s => (s.type, s.label)) =
        [(SegType.groggy, "Groggy"), (SegType.peak, "Morning Peak"),
         (SegType.dip, "Afternoon Dip"), (SegType.peak, "Evening Peak"),
         (SegType.wind_down, "Wind-Down"), (SegType.melatonin, "Melatonin Window")] ∧
      out.segments.Chain' (fun a b => |b.startUtcMs - a.endUtcMs| ≤ 1000) := by
  refine ⟨_, build_eq_ok sleep recovery config s0 e0 hs he, ?_, ?_, ?_⟩
  · rfl
  · rfl
  · simp [assembleOutput, mkSegments, List.chain'_cons]

/-- C1 witness: the conclusion at the worked example. -/
theorem C1_six_contiguous_segments_witness :
    ∃ out, buildEnergyScheduleFromWhoop exampleSleep exampleRecovery exampleConfig =
        Except.ok out ∧
      out.segments.length = 6 ∧
      out.segments.map (fun s => (s.type, s.label)) =
        [(SegType.groggy, "Groggy"), (SegType.peak, "Morning Peak"),
         (SegType.dip, "Afternoon Dip"), (SegType.peak, "Evening Peak"),
         (SegType.wind_down, "Wind-Down"), (SegType.melatonin, "Melatonin Window")] ∧
      out.segments.Chain' (fun a b => |b.startUtcMs - a.endUtcMs| ≤ 1000) :=
  C1_six_contiguous_segments exampleSleep exampleRecovery exampleConfig 0 28800000 rfl rfl

theorem dayModeOf_push_iff (c : ℚ) : dayModeOf c = DayMode.push ↔ 75 ≤ c := by
  unfold dayModeOf
  split_ifs with h1 h2 <;> simp <;> linarith

theorem dayModeOf_balanced_iff (c : ℚ) :
    dayModeOf c = DayMode.balanced ↔ 55 ≤ c ∧ c < 75 := by
  unfold dayModeOf
  split_ifs with h1 h2 <;> simp <;>
    first
      | exact fun h => by linarith
      | exact ⟨by linarith, by linarith⟩

theorem dayModeOf_conserve_iff (c : ℚ) : dayModeOf c = DayMode.conserve ↔ c < 55 := by
  unfold dayModeOf
  split_ifs with h1 h2 <;> simp <;> linarith

theorem mem_mkSegments_energy (w q d : ℚ) :
    ∀ s ∈ mkSegments w q d, 0 ≤ s.energy ∧ s.energy ≤ 1 := by
  intro s hs
  simp only [mkSegments, List.mem_cons, List.not_mem_nil, or_false] at hs
  rcases hs with h | h | h | h | h | h <;> subst h <;>
    exact ⟨scaleEnergy_nonneg _ _ _ _, scaleEnergy_le_one _ _ _ _⟩

/-- C2: for every input where `sleep.start` and `sleep.end` parse, the three
derived scalars equal exactly qualityFactor = clamp(0.5*(perf/100) +
0.5*(recovery/100), 0, 1), debtFactor = clamp(sleepDebtHours/3, 0, 1),
fatigueFactor = 1 - qualityFactor, and all three lie in [0,1].  The echoed
output fields `sleepPerf`, `recoveryScore`, `sleepDebtHours` are the
pipeline's parsed inputs. -/
theorem C2_derived_scalars (sleep : SleepRecord) (recovery : RecoveryRecord)
    (config : Config) (s0 e0 : ℚ) (hs : sleep.start = some s0) (he : sleep.«end» = some e0) :
    ∃ out, buildEnergyScheduleFromWhoop sleep recovery config = Except.ok out ∧
      qualityFactor out.sleepPerf out.recoveryScore =
        clamp (0.5 * (out.sleepPerf / 100) + 0.5 * (out.recoveryScore / 100)) 0 1 ∧
      debtFactor out.sleepDebtHours = clamp (out.sleepDebtHours / 3) 0 1 ∧
      fatigueFactor (qualityFactor out.sleepPerf out.recoveryScore) =
        1 - qualityFactor out.sleepPerf out.recoveryScore ∧
      0 ≤ qualityFactor out.sleepPerf out.recoveryScore ∧
      qualityFactor out.sleepPerf out.recoveryScore ≤ 1 ∧
      0 ≤ debtFactor out.sleepDebtHours ∧ debtFactor out.sleepDebtHours ≤ 1 ∧
      0 ≤ fatigueFactor (qualityFactor out.sleepPerf out.recoveryScore) ∧
      fatigueFactor (qualityFactor out.sleepPerf out.recoveryScore) ≤ 1 := by
  refine ⟨_, build_eq_ok sleep recovery config s0 e0 hs he, rfl, rfl, rfl, ?_, ?_, ?_, ?_, ?_, ?_⟩
  · exact le_clamp _ _ _
  · exact clamp_le_right _ _ _ (by norm_num)
  · exact le_clamp _ _ _
  · exact clamp_le_right _ _ _ (by norm_num)
  · have h := clamp_le_right (0.5 * ((assembleOutput s0 e0
      (parseTimezoneOffsetMinutes sleep.timezone_offset)
      (getNumber sleep.score.sleep_needed.need_from_sleep_debt_milli)
      (getNumber sleep.score.sleep_performance_percentage)
      (getNumber sleep.score.sleep_consistency_percentage)
      (getNumber recovery.score.recovery_score)
      (getNumber config.chronotypeOffsetHours)).sleepPerf / 100) +
      0.5 * ((assembleOutput s0 e0
      (parseTimezoneOffsetMinutes sleep.timezone_offset)
      (getNumber sleep.score.sleep_needed.need_from_sleep_debt_milli)
      (getNumber sleep.score.sleep_performance_percentage)
      (getNumber sleep.score.sleep_consistency_percentage)
      (getNumber recovery.score.recovery_score)
      (getNumber config.chronotypeOffsetHours)).recoveryScore / 100)) 0 1 (by norm_num)
    unfold fatigueFactor qualityFactor
    linarith
  · have h := le_clamp (0.5 * ((assembleOutput s0 e0
      (parseTimezoneOffsetMinutes sleep.timezone_offset)
      (getNumber sleep.score.sleep_needed.need_from_sleep_debt_milli)
      (getNumber sleep.score.sleep_performance_percentage)
      (getNumber sleep.score.sleep_consistency_percentage)
      (getNumber recovery.score.recovery_score)
      (getNumber config.chronotypeOffsetHours)).sleepPerf / 100) +
      0.5 * ((assembleOutput s0 e0
      (parseTimezoneOffsetMinutes sleep.timezone_offset)
      (getNumber sleep.score.sleep_needed.need_from_sleep_debt_milli)
      (getNumber sleep.score.sleep_performance_percentage)
      (getNumber sleep.score.sleep_consistency_percentage)
      (getNumber recovery.score.recovery_score)
      (getNumber config.chronotypeOffsetHours)).recoveryScore / 100)) 0 1
    unfold fatigueFactor qualityFactor
    linarith

/-- C2 witness: the conclusion at the worked example. -/
theorem C2_derived_scalars_witness :
    ∃ out, buildEnergyScheduleFromWhoop exampleSleep exampleRecovery exampleConfig =
        Except.ok out ∧
      qualityFactor out.sleepPerf out.recoveryScore =
        clamp (0.5 * (out.sleepPerf / 100) + 0.5 * (out.recoveryScore / 100)) 0 1 ∧
      debtFactor out.sleepDebtHours = clamp (out.sleepDebtHours / 3) 0 1 ∧
      fatigueFactor (qualityFactor out.sleepPerf out.recoveryScore) =
        1 - qualityFactor out.sleepPerf out.recoveryScore ∧
      0 ≤ qualityFactor out.sleepPerf out.recoveryScore ∧
      qualityFactor out.sleepPerf out.recoveryScore ≤ 1 ∧
      0 ≤ debtFactor out.sleepDebtHours ∧ debtFactor out.sleepDebtHours ≤ 1 ∧
      0 ≤ fatigueFactor (qualityFactor out.sleepPerf out.recoveryScore) ∧
      fatigueFactor (qualityFactor out.sleepPerf out.recoveryScore) ≤ 1 :=
  C2_derived_scalars exampleSleep exampleRecovery exampleConfig 0 28800000 rfl rfl

theorem assembleOutput_sleepPerf (s0 e0 : ℚ) (tz : ℤ) (nm p c r ch : ℚ) :
    (assembleOutput s0 e0 tz nm p c r ch).sleepPerf = p := rfl

theorem assembleOutput_recoveryScore (s0 e0 : ℚ) (tz : ℤ) (nm p c r ch : ℚ) :
    (assembleOutput s0 e0 tz nm p c r ch).recoveryScore = r := rfl

theorem assembleOutput_sleepDebtHours (s0 e0 : ℚ) (tz : ℤ) (nm p c r ch : ℚ) :
    (assembleOutput s0 e0 tz nm p c r ch).sleepDebtHours = nm / HOUR_MS := rfl

theorem assembleOutput_sleepDurationHours (s0 e0 : ℚ) (tz : ℤ) (nm p c r ch : ℚ) :
    (assembleOutput s0 e0 tz nm p c r ch).sleepDurationHours = (e0 - s0) / HOUR_MS := rfl

theorem assembleOutput_timezoneOffsetMinutes (s0 e0 : ℚ) (tz : ℤ) (nm p c r ch : ℚ) :
    (assembleOutput s0 e0 tz nm p c r ch).timezoneOffsetMinutes = tz := rfl

theorem assembleOutput_overallCapacity (s0 e0 : ℚ) (tz : ℤ) (nm p c r ch : ℚ) :
    (assembleOutput s0 e0 tz nm p c r ch).overallCapacity =
      overallCapacity (qualityFactor p r) (debtFactor (nm / HOUR_MS)) c := rfl

theorem assembleOutput_dayMode (s0 e0 : ℚ) (tz : ℤ) (nm p c r ch : ℚ) :
    (assembleOutput s0 e0 tz nm p c r ch).dayMode =
      dayModeOf (overallCapacity (qualityFactor p r) (debtFactor (nm / HOUR_MS)) c) := rfl

theorem assembleOutput_segments (s0 e0 : ℚ) (tz : ℤ) (nm p c r ch : ℚ) :
    (assembleOutput s0 e0 tz nm p c r ch).segments =
      mkSegments (e0 + ch * HOUR_MS) (qualityFactor p r) (debtFactor (nm / HOUR_MS)) := rfl

/-- C3: for every valid input the segment durations are exactly
Groggy = (1.5*(1+0.5*debt) + 0.5*fatigue) h, Morning Peak = 3.5*(1-0.3*fatigue) h,
Afternoon Dip = (3*(1+0.5*debt) + 0.5*fatigue) h, Evening Peak = 3*(1-0.3*fatigue) h,
Wind-Down = exactly 2 h, Melatonin = 0.8 × the Wind-Down duration (1.6 h)
starting exactly where Wind-Down ends; and the first segment starts at
internalWake = sleep.end + chronotypeOffsetHours hours. -/
theorem C3_segment_durations (sleep : SleepRecord) (recovery : RecoveryRecord)
    (config : Config) (s0 e0 : ℚ) (hs : sleep.start = some s0) (he : sleep.«end» = some e0) :
    ∃ out, buildEnergyScheduleFromWhoop sleep recovery config = Except.ok out ∧
      (let q := qualityFactor out.sleepPerf out.recoveryScore
       let f := 1 - q
       let d := debtFactor out.sleepDebtHours
       out.segments.map (fun s => s.endUtcMs - s.startUtcMs) =
         [(1.5 * (1 + 0.5 * d) + 0.5 * f) * HOUR_MS,
          3.5 * (1 - 0.3 * f) * HOUR_MS,
          (3 * (1 + 0.5 * d) + 0.5 * f) * HOUR_MS,
          3 * (1 - 0.3 * f) * HOUR_MS,
          2 * HOUR_MS,
          0.8 * (2 * HOUR_MS)]) ∧
      (out.segments.map (fun s => s.startUtcMs)).head? =
        some (e0 + getNumber config.chronotypeOffsetHours * HOUR_MS) ∧
      (out.segments.map (fun s => s.startUtcMs))[5]? =
        (out.segments.map (fun s => s.endUtcMs))[4]? := by
  refine ⟨_, build_eq_ok sleep recovery config s0 e0 hs he, ?_, ?_, ?_⟩
  · simp only [assembleOutput_sleepPerf, assembleOutput_recoveryScore,
      assembleOutput_sleepDebtHours, assembleOutput_segments, mkSegments, List.map_cons,
      List.map_nil, fatigueFactor, peakDelayHours, peakShrinkRatio, lowEnergyExtendRatio,
      add_sub_cancel_left, List.cons.injEq, and_true]
    refine ⟨by ring_nf, by ring_nf, by ring_nf, by ring_nf, by norm_num, by ring_nf⟩
  · rfl
  · rfl

/-- C3 witness: the conclusion at the worked example. -/
theorem C3_segment_durations_witness :
    ∃ out, buildEnergyScheduleFromWhoop exampleSleep exampleRecovery exampleConfig =
        Except.ok out ∧
      (let q := qualityFactor out.sleepPerf out.recoveryScore
       let f := 1 - q
       let d := debtFactor out.sleepDebtHours
       out.segments.map (fun s => s.endUtcMs - s.startUtcMs) =
         [(1.5 * (1 + 0.5 * d) + 0.5 * f) * HOUR_MS,
          3.5 * (1 - 0.3 * f) * HOUR_MS,
          (3 * (1 + 0.5 * d) + 0.5 * f) * HOUR_MS,
          3 * (1 - 0.3 * f) * HOUR_MS,
          2 * HOUR_MS,
          0.8 * (2 * HOUR_MS)]) ∧
      (out.segments.map (fun s => s.startUtcMs)).head? =
        some (28800000 + getNumber exampleConfig.chronotypeOffsetHours * HOUR_MS) ∧
      (out.segments.map (fun s => s.startUtcMs))[5]? =
        (out.segments.map (fun s => s.endUtcMs))[4]? :=
  C3_segment_durations exampleSleep exampleRecovery exampleConfig 0 28800000 rfl rfl

/-- C4: for every valid input, each segment's energy equals its category base
score (groggy 0.3, peak 0.9, dip 0.4, wind_down 0.3, melatonin 0.2) times
qualityFactor, additionally times (1 - 0.3*debtFactor) for every non-peak
category, clamped to [0,1]; consequently every energy lies in [0,1]. -/
theorem C4_segment_energies (sleep : SleepRecord) (recovery : RecoveryRecord)
    (config : Config) (s0 e0 : ℚ) (hs : sleep.start = some s0) (he : sleep.«end» = some e0) :
    ∃ out, buildEnergyScheduleFromWhoop sleep recovery config = Except.ok out ∧
      (let q := qualityFactor out.sleepPerf out.recoveryScore
       let d := debtFactor out.sleepDebtHours
       out.segments.map (fun s => (s.type, s.energy)) =
         [(SegType.groggy, clamp (0.3 * q * (1 - 0.3 * d)) 0 1),
          (SegType.peak, clamp (0.9 * q) 0 1),
          (SegType.dip, clamp (0.4 * q * (1 - 0.3 * d)) 0 1),
          (SegType.peak, clamp (0.9 * q) 0 1),
          (SegType.wind_down, clamp (0.3 * q * (1 - 0.3 * d)) 0 1),
          (SegType.melatonin, clamp (0.2 * q * (1 - 0.3 * d)) 0 1)]) ∧
      ∀ s ∈ out.segments, 0 ≤ s.energy ∧ s.energy ≤ 1 := by
  refine ⟨_, build_eq_ok sleep recovery config s0 e0 hs he, ?_, ?_⟩
  · simp only [assembleOutput_sleepPerf, assembleOutput_recoveryScore,
      assembleOutput_sleepDebtHours, assembleOutput_segments, mkSegments, List.map_cons,
      List.map_nil, scaleEnergy, baseE, List.cons.injEq, Prod.mk.injEq, and_true, true_and,
      if_true, if_false, Bool.false_eq_true, clamp]
  · rw [assembleOutput_segments]
    exact mem_mkSegments_energy _ _ _

/-- C4 witness: the conclusion at the worked example. -/
theorem C4_segment_energies_witness :
    ∃ out, buildEnergyScheduleFromWhoop exampleSleep exampleRecovery exampleConfig =
        Except.ok out ∧
      (let q := qualityFactor out.sleepPerf out.recoveryScore
       let d := debtFactor out.sleepDebtHours
       out.segments.map (fun s => (s.type, s.energy)) =
         [(SegType.groggy, clamp (0.3 * q * (1 - 0.3 * d)) 0 1),
          (SegType.peak, clamp (0.9 * q) 0 1),
          (SegType.dip, clamp (0.4 * q * (1 - 0.3 * d)) 0 1),
          (SegType.peak, clamp (0.9 * q) 0 1),
          (SegType.wind_down, clamp (0.3 * q * (1 - 0.3 * d)) 0 1),
          (SegType.melatonin, clamp (0.2 * q * (1 - 0.3 * d)) 0 1)]) ∧
      ∀ s ∈ out.segments, 0 ≤ s.energy ∧ s.energy ≤ 1 :=
  C4_segment_energies exampleSleep exampleRecovery exampleConfig 0 28800000 rfl rfl

/-- C5: for every valid input, overallCapacity =
clamp(100*(0.5*qualityFactor + 0.3*(1-debtFactor) + 0.2*(consistency/100)), 0, 100),
hence in [0,100]; and dayMode is push iff capacity ≥ 75, balanced iff
55 ≤ capacity < 75, conserve iff capacity < 55: the three bands partition
[0,100] with inclusive lower bounds and dayMode never takes another value. -/
theorem C5_capacity_and_day_mode (sleep : SleepRecord) (recovery : RecoveryRecord)
    (config : Config) (s0 e0 : ℚ) (hs : sleep.start = some s0) (he : sleep.«end» = some e0) :
    ∃ out, buildEnergyScheduleFromWhoop sleep recovery config = Except.ok out ∧
      (let q := qualityFactor out.sleepPerf out.recoveryScore
       let d := debtFactor out.sleepDebtHours
       out.overallCapacity =
         clamp (100 * (0.5 * q + 0.3 * (1 - d) +
           0.2 * (getNumber sleep.score.sleep_consistency_percentage / 100))) 0 100) ∧
      0 ≤ out.overallCapacity ∧ out.overallCapacity ≤ 100 ∧
      (out.dayMode = DayMode.push ↔ 75 ≤ out.overallCapacity) ∧
      (out.dayMode = DayMode.balanced ↔
        55 ≤ out.overallCapacity ∧ out.overallCapacity < 75) ∧
      (out.dayMode = DayMode.conserve ↔ out.overallCapacity < 55) := by
  refine ⟨_, build_eq_ok sleep recovery config s0 e0 hs he, rfl, ?_, ?_, ?_, ?_, ?_⟩
  · exact le_clamp _ _ _
  · exact clamp_le_right _ _ _ (by norm_num)
  · rw [assembleOutput_dayMode, assembleOutput_overallCapacity]
    exact dayModeOf_push_iff _
  · rw [assembleOutput_dayMode, assembleOutput_overallCapacity]
    exact dayModeOf_balanced_iff _
  · rw [assembleOutput_dayMode, assembleOutput_overallCapacity]
    exact dayModeOf_conserve_iff _

/-- C5 witness: the conclusion at the worked example. -/
theorem C5_capacity_and_day_mode_witness :
    ∃ out, buildEnergyScheduleFromWhoop exampleSleep exampleRecovery exampleConfig =
        Except.ok out ∧
      (let q := qualityFactor out.sleepPerf out.recoveryScore
       let d := debtFactor out.sleepDebtHours
       out.overallCapacity =
         clamp (100 * (0.5 * q + 0.3 * (1 - d) +
           0.2 * (getNumber exampleSleep.score.sleep_consistency_percentage / 100))) 0 100) ∧
      0 ≤ out.overallCapacity ∧ out.overallCapacity ≤ 100 ∧
      (out.dayMode = DayMode.push ↔ 75 ≤ out.overallCapacity) ∧
      (out.dayMode = DayMode.balanced ↔
        55 ≤ out.overallCapacity ∧ out.overallCapacity < 75) ∧
      (out.dayMode = DayMode.conserve ↔ out.overallCapacity < 55) :=
  C5_capacity_and_day_mode exampleSleep exampleRecovery exampleConfig 0 28800000 rfl rfl

theorem build_eq_error_of_start_none (sleep : SleepRecord) (recovery : RecoveryRecord)
    (config : Config) (h : sleep.start = none) :
    buildEnergyScheduleFromWhoop sleep recovery config =
      Except.error "Invalid sleep.start or sleep.end (expected ISO datetime)" := by
  unfold buildEnergyScheduleFromWhoop
  rw [h]

theorem build_eq_error_of_end_none (sleep : SleepRecord) (recovery : RecoveryRecord)
    (config : Config) (h : sleep.«end» = none) :
    buildEnergyScheduleFromWhoop sleep recovery config =
      Except.error "Invalid sleep.start or sleep.end (expected ISO datetime)" := by
  unfold buildEnergyScheduleFromWhoop
  rw [h]
  cases sleep.start <;> rfl

/-- C6: the builder raises an error if and only if `sleep.start` or
`sleep.end` cannot be parsed as an absolute instant; when both parse, a
missing or non-numeric performance, consistency, recovery or debt field each
degrades to the neutral default 0, a non-string (`none`) or malformed
`timezone_offset` is treated as offset 0 (UTC), and a complete six-segment
schedule is still returned in every such case. -/
theorem C6_error_iff_unparseable (sleep : SleepRecord) (recovery : RecoveryRecord)
    (config : Config) :
    ((∃ out, buildEnergyScheduleFromWhoop sleep recovery config = Except.ok out) ↔
      sleep.start.isSome = true ∧ sleep.«end».isSome = true) ∧
    (∀ out, buildEnergyScheduleFromWhoop sleep recovery config = Except.ok out →
      (sleep.score.sleep_performance_percentage = none → out.sleepPerf = 0) ∧
      (recovery.score.recovery_score = none → out.recoveryScore = 0) ∧
      (sleep.score.sleep_needed.need_from_sleep_debt_milli = none → out.sleepDebtHours = 0) ∧
      (sleep.score.sleep_consistency_percentage = none →
        out.overallCapacity =
          clamp (100 * (0.5 * qualityFactor out.sleepPerf out.recoveryScore +
            0.3 * (1 - debtFactor out.sleepDebtHours) + 0.2 * (0 / 100))) 0 100) ∧
      (sleep.timezone_offset = none → out.timezoneOffsetMinutes = 0) ∧
      (∀ s, sleep.timezone_offset = some s → tzWellFormed s = false →
        out.timezoneOffsetMinutes = 0) ∧
      out.segments.length = 6) := by
  have herr : ∀ out, buildEnergyScheduleFromWhoop sleep recovery config = Except.ok out →
      ∃ s0 e0, sleep.start = some s0 ∧ sleep.«end» = some e0 := by
    intro out hok
    cases hstart : sleep.start with
    | none =>
        rw [build_eq_error_of_start_none sleep recovery config hstart] at hok
        exact absurd hok (by simp)
    | some s0 =>
        cases hend : sleep.«end» with
        | none =>
            rw [build_eq_error_of_end_none sleep recovery config hend] at hok
            exact absurd hok (by simp)
        | some e0 => exact ⟨s0, e0, rfl, rfl⟩
  constructor
  · constructor
    · rintro ⟨out, hok⟩
      obtain ⟨s0, e0, hs, he⟩ := herr out hok
      rw [hs, he]
      exact ⟨rfl, rfl⟩
    · rintro ⟨h1, h2⟩
      obtain ⟨s0, hs⟩ := Option.isSome_iff_exists.mp h1
      obtain ⟨e0, he⟩ := Option.isSome_iff_exists.mp h2
      exact ⟨_, build_eq_ok sleep recovery config s0 e0 hs he⟩
  · intro out hok
    obtain ⟨s0, e0, hs, he⟩ := herr out hok
    rw [build_eq_ok sleep recovery config s0 e0 hs he, Except.ok.injEq] at hok
    subst hok
    refine ⟨?_, ?_, ?_, ?_, ?_, ?_, rfl⟩
    · intro h
      rw [assembleOutput_sleepPerf, h]
      rfl
    · intro h
      rw [assembleOutput_recoveryScore, h]
      rfl
    · intro h
      rw [assembleOutput_sleepDebtHours, h]
      norm_num [getNumber]
    · intro h
      rw [assembleOutput_overallCapacity, assembleOutput_sleepPerf,
        assembleOutput_recoveryScore, assembleOutput_sleepDebtHours, h]
      norm_num [overallCapacity, getNumber]
    · intro h
      rw [assembleOutput_timezoneOffsetMinutes, h]
      rfl
    · intro s h hwf
      rw [assembleOutput_timezoneOffsetMinutes, h]
      unfold tzWellFormed at hwf
      simp [parseTimezoneOffsetMinutes, hwf]

/-- C6 witness: the degenerate input (malformed timezone, all score fields
missing) still yields a complete schedule with neutral defaults. -/
theorem C6_error_iff_unparseable_witness :
    ∃ out, buildEnergyScheduleFromWhoop degenerateSleep degenerateRecovery emptyConfig =
        Except.ok out ∧
      out.sleepPerf = 0 ∧ out.recoveryScore = 0 ∧ out.sleepDebtHours = 0 ∧
      out.timezoneOffsetMinutes = 0 ∧ out.segments.length = 6 := by
  obtain ⟨out, hok⟩ :=
    (C6_error_iff_unparseable degenerateSleep degenerateRecovery emptyConfig).1.mpr ⟨rfl, rfl⟩
  have h := (C6_error_iff_unparseable degenerateSleep degenerateRecovery emptyConfig).2 out hok
  exact ⟨out, hok, h.1 rfl, h.2.1 rfl, h.2.2.1 rfl,
    h.2.2.2.2.2.1 "banana" rfl (by decide), h.2.2.2.2.2.2⟩

theorem qualityFactor_mono (p p' r r' : ℚ) (hp : p ≤ p') (hr : r ≤ r') :
    qualityFactor p r ≤ qualityFactor p' r' := by
  apply clamp_mono
  have h1 : p / 100 ≤ p' / 100 := by linarith
  have h2 : r / 100 ≤ r' / 100 := by linarith
  linarith

theorem overallCapacity_mono_q (q q' d c : ℚ) (h : q ≤ q') :
    overallCapacity q d c ≤ overallCapacity q' d c := by
  apply clamp_mono
  linarith

theorem peakShrink_le (q q' : ℚ) (h : q ≤ q') :
    peakShrinkRatio (fatigueFactor q) ≤ peakShrinkRatio (fatigueFactor q') := by
  unfold peakShrinkRatio fatigueFactor
  linarith

theorem peakDur_le (b q q' : ℚ) (hb : 0 ≤ b) (h : q ≤ q') :
    b * peakShrinkRatio (fatigueFactor q) * HOUR_MS ≤
      b * peakShrinkRatio (fatigueFactor q') * HOUR_MS :=
  mul_le_mul_of_nonneg_right
    (mul_le_mul_of_nonneg_left (peakShrink_le q q' h) hb) (by norm_num [HOUR_MS])

/-- C7: for two valid inputs identical except a larger
sleep_performance_percentage, or identical except a larger recovery_score,
the second run's qualityFactor, each peak segment's duration, and
overallCapacity are all ≥ the first's. -/
theorem C7_monotonicity (sleep : SleepRecord) (recovery : RecoveryRecord) (config : Config)
    (s0 e0 : ℚ) (hs : sleep.start = some s0) (he : sleep.«end» = some e0) :
    (∀ p p', sleep.score.sleep_performance_percentage = some p → p ≤ p' →
      ∃ out out',
        buildEnergyScheduleFromWhoop sleep recovery config = Except.ok out ∧
        buildEnergyScheduleFromWhoop
          { start := sleep.start, «end» := sleep.«end»,
            timezone_offset := sleep.timezone_offset,
            score := { sleep_performance_percentage := some p',
                       sleep_consistency_percentage := sleep.score.sleep_consistency_percentage,
                       sleep_needed := sleep.score.sleep_needed } }
          recovery config = Except.ok out' ∧
        qualityFactor out.sleepPerf out.recoveryScore ≤
          qualityFactor out'.sleepPerf out'.recoveryScore ∧
        List.Forall₂ (fun a b => a.type = SegType.peak →
            a.endUtcMs - a.startUtcMs ≤ b.endUtcMs - b.startUtcMs)
          out.segments out'.segments ∧
        out.overallCapacity ≤ out'.overallCapacity) ∧
    (∀ r r', recovery.score.recovery_score = some r → r ≤ r' →
      ∃ out out',
        buildEnergyScheduleFromWhoop sleep recovery config = Except.ok out ∧
        buildEnergyScheduleFromWhoop sleep
          { score := { recovery_score := some r' } } config = Except.ok out' ∧
        qualityFactor out.sleepPerf out.recoveryScore ≤
          qualityFactor out'.sleepPerf out'.recoveryScore ∧
        List.Forall₂ (fun a b => a.type = SegType.peak →
            a.endUtcMs - a.startUtcMs ≤ b.endUtcMs - b.startUtcMs)
          out.segments out'.segments ∧
        out.overallCapacity ≤ out'.overallCapacity) := by
  constructor
  · intro p p' hp hle
    refine ⟨_, _, build_eq_ok sleep recovery config s0 e0 hs he,
      build_eq_ok _ recovery config s0 e0 hs he, ?_, ?_, ?_⟩
    · simp only [assembleOutput_sleepPerf, assembleOutput_recoveryScore, hp, getNumber,
        Option.getD_some]
      exact qualityFactor_mono p p' _ _ hle le_rfl
    · simp only [assembleOutput_segments, mkSegments, hp, getNumber, Option.getD_some,
        List.forall₂_cons, List.Forall₂.nil, add_sub_cancel_left]
      have hq : qualityFactor p (Option.getD recovery.score.recovery_score 0) ≤
          qualityFactor p' (Option.getD recovery.score.recovery_score 0) :=
        qualityFactor_mono p p' _ _ hle le_rfl
      refine ⟨by simp, fun _ => peakDur_le _ _ _ (by norm_num) hq,
        by simp, fun _ => peakDur_le _ _ _ (by norm_num) hq, by simp, by simp, trivial⟩
    · simp only [assembleOutput_overallCapacity, hp, getNumber, Option.getD_some]
      exact overallCapacity_mono_q _ _ _ _ (qualityFactor_mono p p' _ _ hle le_rfl)
  · intro r r' hr hle
    refine ⟨_, _, build_eq_ok sleep recovery config s0 e0 hs he,
      build_eq_ok sleep _ config s0 e0 hs he, ?_, ?_, ?_⟩
    · simp only [assembleOutput_sleepPerf, assembleOutput_recoveryScore, hr, getNumber,
        Option.getD_some]
      exact qualityFactor_mono _ _ r r' le_rfl hle
    · simp only [assembleOutput_segments, mkSegments, hr, getNumber, Option.getD_some,
        List.forall₂_cons, List.Forall₂.nil, add_sub_cancel_left]
      have hq : qualityFactor (Option.getD sleep.score.sleep_performance_percentage 0) r ≤
          qualityFactor (Option.getD sleep.score.sleep_performance_percentage 0) r' :=
        qualityFactor_mono _ _ r r' le_rfl hle
      refine ⟨by simp, fun _ => peakDur_le _ _ _ (by norm_num) hq,
        by simp, fun _ => peakDur_le _ _ _ (by norm_num) hq, by simp, by simp, trivial⟩
    · simp only [assembleOutput_overallCapacity, hr, getNumber, Option.getD_some]
      exact overallCapacity_mono_q _ _ _ _ (qualityFactor_mono _ _ r r' le_rfl hle)

/-- C7 witness: both parts at the worked example (performance 98 → 99,
recovery 44 → 60). -/
theorem C7_monotonicity_witness :
    (∃ out out',
        buildEnergyScheduleFromWhoop exampleSleep exampleRecovery exampleConfig =
          Except.ok out ∧
        buildEnergyScheduleFromWhoop
          { start := exampleSleep.start, «end» := exampleSleep.«end»,
            timezone_offset := exampleSleep.timezone_offset,
            score := { sleep_performance_percentage := some 99,
                       sleep_consistency_percentage :=
                         exampleSleep.score.sleep_consistency_percentage,
                       sleep_needed := exampleSleep.score.sleep_needed } }
          exampleRecovery exampleConfig = Except.ok out' ∧
        qualityFactor out.sleepPerf out.recoveryScore ≤
          qualityFactor out'.sleepPerf out'.recoveryScore ∧
        List.Forall₂ (fun a b => a.type = SegType.peak →
            a.endUtcMs - a.startUtcMs ≤ b.endUtcMs - b.startUtcMs)
          out.segments out'.segments ∧
        out.overallCapacity ≤ out'.overallCapacity) ∧
    (∃ out out',
        buildEnergyScheduleFromWhoop exampleSleep exampleRecovery exampleConfig =
          Except.ok out ∧
        buildEnergyScheduleFromWhoop exampleSleep
          { score := { recovery_score := some 60 } } exampleConfig = Except.ok out' ∧
        qualityFactor out.sleepPerf out.recoveryScore ≤
          qualityFactor out'.sleepPerf out'.recoveryScore ∧
        List.Forall₂ (fun a b => a.type = SegType.peak →
            a.endUtcMs - a.startUtcMs ≤ b.endUtcMs - b.startUtcMs)
          out.segments out'.segments ∧
        out.overallCapacity ≤ out'.overallCapacity) := by
  have h := C7_monotonicity exampleSleep exampleRecovery exampleConfig 0 28800000 rfl rfl
  exact ⟨h.1 98 99 rfl (by norm_num), h.2 44 60 rfl (by norm_num)⟩

/-- C8 counterexample: `invertedSleep` has both instants parsed with
end (0) strictly before start (3 600 000 ms), yet the pipeline does not fail:
it returns a complete schedule.  The source never compares the two instants. -/
theorem C8_counterexample :
    invertedSleep.start = some 3600000 ∧ invertedSleep.«end» = some 0 ∧
    ((0 : ℚ) < 3600000) ∧
    buildEnergyScheduleFromWhoop invertedSleep degenerateRecovery emptyConfig =
      Except.ok (assembleOutput 3600000 0 0 0 0 0 0 0) :=
  ⟨rfl, rfl, by norm_num,
    build_eq_ok invertedSleep degenerateRecovery emptyConfig 3600000 0 rfl rfl⟩

/-- C8 amended: when `sleep.start` and `sleep.end` both parse but the end
instant is strictly earlier than the start instant, the pipeline does NOT
fail: it still returns a complete six-segment schedule, whose
`sleepDurationHours` is negative. -/
theorem C8_amended_no_error_on_inverted (sleep : SleepRecord) (recovery : RecoveryRecord)
    (config : Config) (s0 e0 : ℚ) (hs : sleep.start = some s0) (he : sleep.«end» = some e0)
    (hlt : e0 < s0) :
    ∃ out, buildEnergyScheduleFromWhoop sleep recovery config = Except.ok out ∧
      out.sleepDurationHours < 0 ∧ out.segments.length = 6 := by
  refine ⟨_, build_eq_ok sleep recovery config s0 e0 hs he, ?_, rfl⟩
  rw [assembleOutput_sleepDurationHours]
  apply div_neg_of_neg_of_pos
  · linarith
  · norm_num [HOUR_MS]

/-- C8 amended witness: the conclusion at the inverted input. -/
theorem C8_amended_no_error_on_inverted_witness :
    ∃ out, buildEnergyScheduleFromWhoop invertedSleep degenerateRecovery emptyConfig =
        Except.ok out ∧
      out.sleepDurationHours < 0 ∧ out.segments.length = 6 :=
  C8_amended_no_error_on_inverted invertedSleep degenerateRecovery emptyConfig
    3600000 0 rfl rfl (by norm_num)

/-- C9 counterexample: two invocations identical except for `config.dayDate`
return identical outputs.  The returned record (see `EnergyModelOutput`,
traced from the source's return object) carries no dayDate component, so the
date cannot appear, unchanged or otherwise, in the output: it is dropped, not
passed through. -/
theorem C9_counterexample :
    buildEnergyScheduleFromWhoop exampleSleep exampleRecovery
        { chronotypeOffsetHours := some 0.5, dayDate := some "2025-06-01" } =
      buildEnergyScheduleFromWhoop exampleSleep exampleRecovery
        { chronotypeOffsetHours := some 0.5, dayDate := some "2025-06-02" } := rfl

/-- C9 amended: config.dayDate is not used in arithmetic and is not included
in the returned output at all (it is dropped, not passed through): any two
invocations whose configs agree on chronotypeOffsetHours, whatever their
dayDate fields, return identical outputs. -/
theorem C9_amended_dayDate_ignored (sleep : SleepRecord) (recovery : RecoveryRecord)
    (c1 c2 : Config) (h : c1.chronotypeOffsetHours = c2.chronotypeOffsetHours) :
    buildEnergyScheduleFromWhoop sleep recovery c1 =
      buildEnergyScheduleFromWhoop sleep recovery c2 := by
  cases c1
  cases c2
  cases h
  rfl

/-- C9 amended witness: the conclusion at the worked example with dayDate
present versus absent. -/
theorem C9_amended_dayDate_ignored_witness :
    buildEnergyScheduleFromWhoop exampleSleep exampleRecovery
        { chronotypeOffsetHours := some 0.5, dayDate := some "2025-06-03" } =
      buildEnergyScheduleFromWhoop exampleSleep exampleRecovery
        { chronotypeOffsetHours := some 0.5, dayDate := none } :=
  C9_amended_dayDate_ignored exampleSleep exampleRecovery
    { chronotypeOffsetHours := some 0.5, dayDate := some "2025-06-03" }
    { chronotypeOffsetHours := some 0.5, dayDate := none } rfl

/-- C10: a numeric sleep_performance_percentage or recovery_score outside
[0,100] raises no error; the output fields sleepPerf and recoveryScore echo
the raw out-of-range values unchanged, while qualityFactor, every segment
energy, and overallCapacity remain clamped inside [0,1], [0,1] and [0,100]. -/
theorem C10_out_of_range_echoed (sleep : SleepRecord) (recovery : RecoveryRecord)
    (config : Config) (s0 e0 p r : ℚ) (hs : sleep.start = some s0)
    (he : sleep.«end» = some e0)
    (hp : sleep.score.sleep_performance_percentage = some p)
    (hr : recovery.score.recovery_score = some r)
    (hrange : p < 0 ∨ 100 < p ∨ r < 0 ∨ 100 < r) :
    ∃ out, buildEnergyScheduleFromWhoop sleep recovery config = Except.ok out ∧
      out.sleepPerf = p ∧ out.recoveryScore = r ∧
      0 ≤ qualityFactor out.sleepPerf out.recoveryScore ∧
      qualityFactor out.sleepPerf out.recoveryScore ≤ 1 ∧
      (∀ s ∈ out.segments, 0 ≤ s.energy ∧ s.energy ≤ 1) ∧
      0 ≤ out.overallCapacity ∧ out.overallCapacity ≤ 100 := by
  refine ⟨_, build_eq_ok sleep recovery config s0 e0 hs he, ?_, ?_, le_clamp _ _ _,
    clamp_le_right _ _ _ (by norm_num), ?_, le_clamp _ _ _,
    clamp_le_right _ _ _ (by norm_num)⟩
  · rw [assembleOutput_sleepPerf, hp]
    rfl
  · rw [assembleOutput_recoveryScore, hr]
    rfl
  · rw [assembleOutput_segments]
    exact mem_mkSegments_energy _ _ _

/-- C10 witness: performance 150 and recovery −20 are echoed unchanged while
all derived quantities stay in range. -/
theorem C10_out_of_range_echoed_witness :
    ∃ out, buildEnergyScheduleFromWhoop outOfRangeSleep outOfRangeRecovery emptyConfig =
        Except.ok out ∧
      out.sleepPerf = 150 ∧ out.recoveryScore = -20 ∧
      0 ≤ qualityFactor out.sleepPerf out.recoveryScore ∧
      qualityFactor out.sleepPerf out.recoveryScore ≤ 1 ∧
      (∀ s ∈ out.segments, 0 ≤ s.energy ∧ s.energy ≤ 1) ∧
      0 ≤ out.overallCapacity ∧ out.overallCapacity ≤ 100 :=
  C10_out_of_range_echoed outOfRangeSleep outOfRangeRecovery emptyConfig 0 28800000 150 (-20)
    rfl rfl rfl rfl (Or.inr (Or.inl (by norm_num)))
